import Mathlib

/-!
Shallow embedding of the eager-mode TF policy layer of this repository:
`rllib/policy/eager_policy.py` (class `TFEagerPolicy` and the factory
`build_tf_policy`) together with the PG wiring in
`python/ray/rllib/agents/pg/eager_pg_policy.py` and
`python/ray/rllib/agents/pg/pg.py`.

Tensors, models, optimizers and distribution objects are opaque runtime
values of a type parameter `α`; every operation the wrapped deep-learning
framework performs on them is an explicit function parameter (`ExternalOps`).
Python dictionaries are association lists with first-occurrence lookup and
overwrite-or-append update, Python iteration objects are modelled by `PyIter`
(a `zip` object is a one-shot iterator, a `list` is re-iterable), and the
value-level effect of `.numpy()` is the identity on the carried value.
-/

/-- Python runtime errors raised by the code under study. -/
inductive PyErr where
  | typeError : String → PyErr
  | valueError : String → PyErr
  | assertionError : PyErr
  | notImplementedError : PyErr
deriving DecidableEq

/-- A Python dict, modelled as an association list whose keys are unique when
the dict is built through `dictSet`/`dictUpdate`. -/
abbrev PyDict (α : Type) := List (String × α)

/-- Dict lookup `d[k]`: the value at the first matching key. -/
def dictGet {α : Type} (d : PyDict α) (k : String) : Option α :=
  match d with
  | [] => none
  | (k', v) :: rest => if k' = k then some v else dictGet rest k

/-- Dict item assignment `d[k] = v`: overwrite the first slot holding `k`
in place, or append a fresh slot, exactly as a Python dict preserves
insertion order. -/
def dictSet {α : Type} (d : PyDict α) (k : String) (v : α) : PyDict α :=
  match d with
  | [] => [(k, v)]
  | (k', v') :: rest =>
      if k' = k then (k, v) :: rest else (k', v') :: dictSet rest k v

/-- Python `d.update(e)`: assign every entry of `e` into `d`, left to
right. -/
def dictUpdate {α : Type} (d e : PyDict α) : PyDict α :=
  e.foldl (fun acc kv => dictSet acc kv.1 kv.2) d

/-- Python `k in d`. -/
def dictHasKey {α : Type} (d : PyDict α) (k : String) : Bool :=
  (dictGet d k).isSome

theorem dictGet_dictSet_self {α : Type} (d : PyDict α) (k : String) (v : α) :
    dictGet (dictSet d k v) k = some v := by
  induction d with
  | nil => simp [dictSet, dictGet]
  | cons kv rest ih =>
      obtain ⟨k', v'⟩ := kv
      by_cases h : k' = k
      · simp [dictSet, dictGet, h]
      · simp [dictSet, dictGet, h, ih]

theorem dictGet_dictSet_ne {α : Type} (d : PyDict α) (k k' : String) (v : α)
    (h : k' ≠ k) : dictGet (dictSet d k v) k' = dictGet d k' := by
  have hks : ¬ k = k' := fun hh => h hh.symm
  induction d with
  | nil => simp [dictSet, dictGet, hks]
  | cons kv rest ih =>
      obtain ⟨k₁, v₁⟩ := kv
      by_cases h₁ : k₁ = k
      · subst h₁
        have h₂ : ¬ k₁ = k' := fun hh => h hh.symm
        simp [dictSet, dictGet, h₂]
      · by_cases h₂ : k₁ = k'
        · simp [dictSet, dictGet, h₁, h₂, h]
        · simp [dictSet, dictGet, h₁, h₂, ih]

theorem dictHasKey_cons_false {α : Type} (k₁ : String) (v₁ : α)
    (rest : PyDict α) (k : String)
    (h : dictHasKey ((k₁, v₁) :: rest) k = false) :
    k₁ ≠ k ∧ dictHasKey rest k = false := by
  by_cases h₁ : k₁ = k
  · exfalso
    simp [dictHasKey, dictGet, h₁] at h
  · refine ⟨h₁, ?_⟩
    simpa [dictHasKey, dictGet, h₁] using h

theorem dictGet_dictUpdate_of_hasKey_false {α : Type} (e d : PyDict α)
    (k : String) (h : dictHasKey e k = false) :
    dictGet (dictUpdate d e) k = dictGet d k := by
  induction e generalizing d with
  | nil => rfl
  | cons kv rest ih =>
      obtain ⟨k₁, v₁⟩ := kv
      obtain ⟨hne, hrest⟩ := dictHasKey_cons_false k₁ v₁ rest k h
      have hstep : dictUpdate d ((k₁, v₁) :: rest)
          = dictUpdate (dictSet d k₁ v₁) rest := rfl
      rw [hstep, ih (dictSet d k₁ v₁) hrest,
        dictGet_dictSet_ne d k₁ k v₁ (fun hh => hne hh.symm)]

theorem dictHasKey_dictSet_of {α : Type} (d : PyDict α) (k k' : String)
    (v : α) (h : dictHasKey d k' = true) :
    dictHasKey (dictSet d k v) k' = true := by
  by_cases hk : k' = k
  · subst hk
    simp [dictHasKey, dictGet_dictSet_self]
  · simpa [dictHasKey, dictGet_dictSet_ne d k k' v hk] using h

theorem dictHasKey_dictUpdate_of {α : Type} (e d : PyDict α) (k : String)
    (h : dictHasKey d k = true) : dictHasKey (dictUpdate d e) k = true := by
  induction e generalizing d with
  | nil => exact h
  | cons kv rest ih =>
      obtain ⟨k₁, v₁⟩ := kv
      have hstep : dictUpdate d ((k₁, v₁) :: rest)
          = dictUpdate (dictSet d k₁ v₁) rest := rfl
      rw [hstep]
      exact ih (dictSet d k₁ v₁) (dictHasKey_dictSet_of d k₁ k v₁ h)

theorem dictHasKey_map {α β : Type} (d : PyDict α) (g : α → β) (k : String) :
    dictHasKey (d.map fun kv => (kv.1, g kv.2)) k = dictHasKey d k := by
  induction d with
  | nil => rfl
  | cons kv rest ih =>
      obtain ⟨k₁, v₁⟩ := kv
      by_cases h : k₁ = k
      · simp [dictHasKey, dictGet, h]
      · simpa [dictHasKey, dictGet, h] using ih

/-- Python iteration objects as they occur in `learn_on_batch`: a `list` can
be traversed any number of times, while a `zip` object is a one-shot iterator
that is exhausted after it has been traversed once. -/
inductive PyIter (α : Type) where
  | pyList : List α → PyIter α
  | pyZip : List α → PyIter α

/-- Traverse the object once, as a `for` loop, a list comprehension, or the
`list(...)` constructor does: the elements obtained, paired with the object's
state afterwards. -/
def PyIter.iterate {α : Type} : PyIter α → List α × PyIter α
  | .pyList xs => (xs, .pyList xs)
  | .pyZip xs => (xs, .pyZip [])

/-- A `tf.Variable`: a mutable cell holding a tensor value. -/
structure TFVariable (α : Type) where
  value : α
deriving DecidableEq

/-- Reading a variable with `.numpy()` yields its current value. -/
def TFVariable.numpy {α : Type} (v : TFVariable α) : α := v.value

/-- Python `var.assign(value)` stores `value` in the variable. -/
def TFVariable.assign {α : Type} (v : TFVariable α) (x : α) : TFVariable α :=
  { v with value := x }

/-- Modelled from the spec: `LEARNER_STATS_KEY` is imported from
`ray.rllib.policy.policy`, which is not under `src/`; only its identity as a
distinguished dict key matters here, not its concrete text. -/
def LEARNER_STATS_KEY : String := "learner_stats"

/-- Modelled from the spec: `ACTION_PROB` is imported from
`ray.rllib.policy.tf_policy`, which is not under `src/`. -/
def ACTION_PROB : String := "action_prob"

/-- Modelled from the spec: `ACTION_LOGP` is imported from
`ray.rllib.policy.tf_policy`, which is not under `src/`. -/
def ACTION_LOGP : String := "action_logp"

/-- Modelled from the spec: the column-name constants of `SampleBatch`
(`ray.rllib.policy.sample_batch`, not under `src/`). -/
def SampleBatch.CUR_OBS : String := "obs"

/-- Modelled from the spec: the previous-actions column name of
`SampleBatch`. -/
def SampleBatch.PREV_ACTIONS : String := "prev_actions"

/-- Modelled from the spec: the previous-rewards column name of
`SampleBatch`. -/
def SampleBatch.PREV_REWARDS : String := "prev_rewards"

/-- A value stored in the statistics dict returned by `learn_on_batch`:
either a single converted tensor, or the nested learner-stats table. -/
inductive StatVal (α : Type) where
  | tensor : α → StatVal α
  | table : PyDict α → StatVal α
deriving DecidableEq

/-- The operations the wrapped deep-learning framework performs on the
opaque runtime values; `eager_policy.py` only composes them.  Each field is
documented with the source expression it stands for. -/
structure ExternalOps (α : Type) where
  /-- tensor conversion, `tf.convert_to_tensor(v)` on a value -/
  convert : α → α
  /-- conversion of a possibly-absent batch column,
  `tf.convert_to_tensor(prev_action_batch)` where the batch may be `None` -/
  convertOpt : Option α → α
  /-- the column filter `v.dtype != np.object` of `learn_on_batch` -/
  isObjectDtype : α → Bool
  /-- the tensor `tf.ones(len(samples[SampleBatch.CUR_OBS]))` -/
  onesOfBatch : PyDict α → α
  /-- the tensor `tf.ones(len(obs_batch))` -/
  onesOfLen : α → α
  /-- the forward pass `self.model(input_dict, state_batches, seq_lens)`,
  returning `(model_out, state_out)` -/
  modelForward : PyDict α → List α → α → α × List α
  /-- the sampled action `self.action_dist.sample().numpy()` -/
  sample : α → α
  /-- the tensor `self.action_dist.sampled_action_logp()` -/
  sampledActionLogp : α → α
  /-- the user callback `action_sampler_fn(self, self.model, input_dict,
  self.observation_space, self.action_space, self.config)`, returning an
  `(action, logp)` pair whose `logp` may be `None` -/
  actionSampler : PyDict α → α × Option α
  /-- the tensor `tf.exp(logp)` -/
  exp : α → α
  /-- the tensor `tf.convert_to_tensor(False)` -/
  falseVal : α
  /-- the gradient list `tape.gradient(loss, variables)` -/
  tapeGradient : α → List (TFVariable α) → List α
  /-- the heap effect of `self.optimizer.apply_gradients(grads_and_vars)`
  on the trainable variables it receives -/
  applyGradientsHeap : List (α × TFVariable α) → List (TFVariable α) → List (TFVariable α)
  /-- the gradient/variable pairs produced by the TF optimizer's
  `compute_gradients` once it has evaluated the loss closure handed to it -/
  optimizerComputeGradients : α → List (α × TFVariable α)

/-- The user-supplied callbacks that `build_tf_policy` captures and that the
generated class consults.  The callbacks that receive the policy object
itself (`self`) are modelled by their result on the remaining arguments;
the `self` argument carries no information the theorems depend on. -/
structure BuildConfig (α : Type) where
  /-- the mandatory `loss_fn(policy, batch)` callback, reached through
  `policy_cls._loss` -/
  loss_fn : PyDict α → α
  /-- the optional `stats_fn(policy, batch)` callback -/
  stats_fn : Option (PyDict α → PyDict α)
  /-- the dict returned by the optional `extra_learn_fetches_fn(self)` -/
  extra_learn_fetches_fn : Option (PyDict α)
  /-- the optional `grad_stats_fn(policy, batch, grads)` callback -/
  grad_stats_fn : Option (PyDict α → List α → PyDict α)
  /-- the optional `postprocess_fn(policy, samples)` callback -/
  postprocess_fn : Option (PyDict α → PyDict α)
  /-- the dict returned by the optional `extra_action_fetches_fn(self)` -/
  extra_action_fetches_fn : Option (PyDict α)
  /-- the optional `gradients_fn(policy, optimizer_wrapper, loss)` callback;
  its result is a Python iteration object of gradient/variable pairs -/
  gradients_fn : Option (α → PyIter (α × TFVariable α))
  /-- the `obs_include_prev_action_reward` flag of `build_tf_policy` -/
  obs_include_prev_action_reward : Bool

/-- The mutable attributes of a policy object.  `optimizer` and `model` are
object references (`self.optimizer`, `self.model`); the variables owned by
the referenced model live in the separate heap fields `modelVars`
(`self.model.variables()`) and `trainableVars`
(`self.model.trainable_variables()`), so that mutating a variable in place
is distinct from rebinding the `self.model` reference. -/
structure PolicyState (α : Type) where
  /-- reference held in `self.optimizer` -/
  optimizer : Nat
  /-- reference held in `self.model` -/
  model : Nat
  /-- current values of the variables `self.model.variables()` returns -/
  modelVars : List (TFVariable α)
  /-- current values of the variables `self.model.trainable_variables()`
  returns -/
  trainableVars : List (TFVariable α)
  /-- the `self.is_training` flag -/
  is_training : Bool
  /-- the `self.dist_class` attribute: the action-distribution constructor,
  or `None` when an `action_sampler_fn` was supplied -/
  dist_class : Option (α → α)
  /-- the `self.seq_lens` attribute set by `learn_on_batch` -/
  seq_lens : Option α
  /-- the `self.state_in` attribute -/
  state_in : List α
  /-- the `self.model_out` attribute -/
  model_out : Option α
  /-- the `self.state_out` attribute -/
  state_out : List α
  /-- the `self.action_dist` attribute -/
  action_dist : Option α

/-- The dict comprehension opening `learn_on_batch`:
`{k: tf.convert_to_tensor(v) for k, v in samples.items() if v.dtype != np.object}`. -/
def TFEagerPolicy.convert_batch {α : Type} (ext : ExternalOps α)
    (samples : PyDict α) : PyDict α :=
  (samples.filter fun kv => !(ext.isObjectDtype kv.2)).map
    fun kv => (kv.1, ext.convert kv.2)

/-- The `policy_cls._stats` method (`eager_policy.py` lines 379-399): the
learner-stats slot is filled from `stats_fn` (each value read with
`.numpy()`, the identity here) or left as the empty dict, then the results
of `extra_learn_fetches_fn` and `grad_stats_fn` are merged in with
`dict.update`. -/
def policy_cls.stats_method {α : Type} (cfg : BuildConfig α)
    (samples : PyDict α) (grads : List α) : PyDict (StatVal α) :=
  let fetches : PyDict (StatVal α) := []
  let fetches := match cfg.stats_fn with
    | some f => dictSet fetches LEARNER_STATS_KEY (StatVal.table (f samples))
    | none => dictSet fetches LEARNER_STATS_KEY (StatVal.table [])
  let fetches := match cfg.extra_learn_fetches_fn with
    | some d => dictUpdate fetches (d.map fun kv => (kv.1, StatVal.tensor kv.2))
    | none => fetches
  let fetches := match cfg.grad_stats_fn with
    | some f =>
        dictUpdate fetches
          ((f samples grads).map fun kv => (kv.1, StatVal.tensor kv.2))
    | none => fetches
  fetches

/-- What one `learn_on_batch` call produces: the policy state afterwards,
the statistics dict it returns, and the gradient/variable pairs that were
actually passed to `self.optimizer.apply_gradients`. -/
structure LearnResult (α : Type) where
  state : PolicyState α
  stats : PyDict (StatVal α)
  applied : List (α × TFVariable α)

/-- The body of `TFEagerPolicy.learn_on_batch` (`eager_policy.py` lines
44-98).  `logOnceGradVars` is the value of `log_once("grad_vars")` on this
call; modelled from the spec, that helper (in `ray.rllib.utils.debug`, not
under `src/`) returns `True` exactly the first time the key is seen in a
process and `False` on every later call.  When it returns `True` the code
rebinds `grads_and_vars` to `list(grads_and_vars)`; otherwise the original
`zip` iterator flows into the stats list comprehension and then into
`optimizer.apply_gradients`. -/
def TFEagerPolicy.learn_on_batch {α : Type} (ext : ExternalOps α)
    (cfg : BuildConfig α) (logOnceGradVars : Bool) (st : PolicyState α)
    (samples : PyDict α) : LearnResult α :=
  let st := { st with is_training := true }
  let samples := TFEagerPolicy.convert_batch ext samples
  let st := { st with seq_lens := some (ext.onesOfBatch samples), state_in := [] }
  let fwd := ext.modelForward samples [] (ext.onesOfBatch samples)
  let st := { st with model_out := some fwd.1, state_out := fwd.2 }
  let st := match st.dist_class with
    | some dc => { st with action_dist := some (dc fwd.1) }
    | none => st
  let loss := cfg.loss_fn samples
  let vars := st.trainableVars
  let gv : PyIter (α × TFVariable α) := match cfg.gradients_fn with
    | some f => f loss
    | none => PyIter.pyZip ((ext.tapeGradient loss vars).zip vars)
  let gv := if logOnceGradVars then PyIter.pyList (gv.iterate).1 else gv
  let statsPass := gv.iterate
  let stats := policy_cls.stats_method cfg samples (statsPass.1.map Prod.fst)
  let applied := (statsPass.2.iterate).1
  let st := { st with
    trainableVars := ext.applyGradientsHeap applied st.trainableVars }
  { state := st, stats := stats, applied := applied }

/-- What one `compute_actions` call produces: the state afterwards and the
returned triple `(action, state_out, fetches)`. -/
structure ActionsResult (α : Type) where
  state : PolicyState α
  action : α
  state_out : List α
  fetches : PyDict α

/-- The `input_dict` assembled by `policy_cls.compute_actions`
(`eager_policy.py` lines 340-350): the current observations, the
`is_training` flag, and, when `obs_include_prev_action_reward` is set, the
previous action and reward columns. -/
def policy_cls.action_input_dict {α : Type} (ext : ExternalOps α)
    (cfg : BuildConfig α) (obs_batch : α)
    (prev_action_batch prev_reward_batch : Option α) : PyDict α :=
  let d := dictSet (dictSet [] SampleBatch.CUR_OBS (ext.convert obs_batch))
    "is_training" ext.falseVal
  if cfg.obs_include_prev_action_reward then
    dictSet
      (dictSet d SampleBatch.PREV_ACTIONS (ext.convertOpt prev_action_batch))
      SampleBatch.PREV_REWARDS (ext.convertOpt prev_reward_batch)
  else d

/-- The fetches dict assembled at the end of `policy_cls.compute_actions`
(`eager_policy.py` lines 365-372): when `logp` is not `None` the dict gets
`ACTION_PROB = tf.exp(logp).numpy()` and `ACTION_LOGP = logp.numpy()`, and
then the result of `extra_action_fetches_fn`, when that callback was
supplied, is merged in with `dict.update`. -/
def policy_cls.action_fetches {α : Type} (ext : ExternalOps α)
    (logp : Option α) (extra : Option (PyDict α)) : PyDict α :=
  let fetches : PyDict α := []
  let fetches := match logp with
    | some l => dictSet (dictSet fetches ACTION_PROB (ext.exp l)) ACTION_LOGP l
    | none => fetches
  match extra with
  | some d => dictUpdate fetches d
  | none => fetches

/-- The body of `policy_cls.compute_actions` (`eager_policy.py` lines
327-373). -/
def policy_cls.compute_actions {α : Type} (ext : ExternalOps α)
    (cfg : BuildConfig α) (st : PolicyState α) (obs_batch : α)
    (state_batches : List α)
    (prev_action_batch prev_reward_batch : Option α) : ActionsResult α :=
  let st := { st with is_training := false }
  let seq_len := ext.onesOfLen obs_batch
  let input_dict :=
    policy_cls.action_input_dict ext cfg obs_batch prev_action_batch
      prev_reward_batch
  let st := { st with state_in := state_batches }
  let fwd := ext.modelForward input_dict state_batches seq_len
  let st := { st with model_out := some fwd.1, state_out := fwd.2 }
  match st.dist_class with
  | some dc =>
      let ad := dc fwd.1
      let st := { st with action_dist := some ad }
      { state := st, action := ext.sample ad, state_out := fwd.2,
        fetches :=
          policy_cls.action_fetches ext (some (ext.sampledActionLogp ad))
            cfg.extra_action_fetches_fn }
  | none =>
      let sampled := ext.actionSampler input_dict
      { state := st, action := sampled.1, state_out := fwd.2,
        fetches :=
          policy_cls.action_fetches ext sampled.2
            cfg.extra_action_fetches_fn }

/-- The log-probability value `compute_actions` works with on a given call:
`self.action_dist.sampled_action_logp()` when a distribution class is
present, and the second component of the `action_sampler_fn` result
otherwise.  This mirrors the branch of `policy_cls.compute_actions` so that
theorems can speak about calls in which a log-probability is produced. -/
def policy_cls.computed_logp {α : Type} (ext : ExternalOps α)
    (cfg : BuildConfig α) (st : PolicyState α) (obs_batch : α)
    (state_batches : List α)
    (prev_action_batch prev_reward_batch : Option α) : Option α :=
  let input_dict :=
    policy_cls.action_input_dict ext cfg obs_batch prev_action_batch
      prev_reward_batch
  match st.dist_class with
  | some dc =>
      some (ext.sampledActionLogp
        (dc (ext.modelForward input_dict state_batches
          (ext.onesOfLen obs_batch)).1))
  | none => (ext.actionSampler input_dict).2

/-- Calling a bound Python method with positional arguments: `TypeError`
when the number of arguments differs from the number of parameters the
`def` declares (none of the methods involved has defaults), otherwise the
method body runs. -/
def pyBoundCall {β : Type} (paramCount argCount : Nat)
    (body : Except PyErr β) : Except PyErr β :=
  if argCount = paramCount then body
  else Except.error (PyErr.typeError "wrong number of positional arguments")

/-- Parameter count of `TFEagerPolicy.loss(self, outputs, samples)` after
`self` (`eager_policy.py` line 36). -/
def TFEagerPolicy.loss_param_count : Nat := 2

/-- Body of `TFEagerPolicy.loss`: `raise NotImplementedError`.  The class
generated by `build_tf_policy` defines `_loss` but never overrides `loss`,
so this is the body a `self.loss(...)` call reaches. -/
def TFEagerPolicy.loss_body {α : Type} : Except PyErr α :=
  Except.error PyErr.notImplementedError

/-- Parameter count of `TFEagerPolicy.stats(self, outputs, samples)` after
`self` (`eager_policy.py` line 40). -/
def TFEagerPolicy.stats_param_count : Nat := 2

/-- Body of `TFEagerPolicy.stats`: `raise NotImplementedError`.  The
generated class defines `_stats` but never overrides `stats`. -/
def TFEagerPolicy.stats_body {α : Type} : Except PyErr (PyDict (StatVal α)) :=
  Except.error PyErr.notImplementedError

/-- The body of `TFEagerPolicy.compute_gradients` (`eager_policy.py` lines
100-121).  The wrapped optimizer's `compute_gradients` evaluates the loss
closure `lambda: self.loss(postprocessed_batch)` in order to differentiate
it; that closure calls `self.loss` with one positional argument.  Afterwards
the code unzips the pairs, reads each gradient with `.numpy()`, and calls
`self.stats(self, postprocessed_batch, grads)` with three positional
arguments.  Errors raised along the way propagate out of the method. -/
def TFEagerPolicy.compute_gradients {α : Type} (ext : ExternalOps α)
    (st : PolicyState α) (postprocessed_batch : PyDict α) :
    PolicyState α × Except PyErr (List α × PyDict (StatVal α)) :=
  let st := { st with is_training := true }
  let run : Except PyErr (List α × PyDict (StatVal α)) := do
    let lossVal ← pyBoundCall TFEagerPolicy.loss_param_count 1
      TFEagerPolicy.loss_body
    let pairs := ext.optimizerComputeGradients lossVal
    let grads := pairs.map Prod.fst
    let info ← pyBoundCall TFEagerPolicy.stats_param_count 3
      TFEagerPolicy.stats_body
    pure (grads, info)
  (st, run)

/-- A Python return value that may be the `NotImplemented` sentinel. -/
inductive PyRet (α : Type) where
  | value : α → PyRet α
  | notImplemented : PyRet α
deriving DecidableEq

/-- The body of `TFEagerPolicy.apply_gradients` (`eager_policy.py` lines
123-131): it touches nothing and returns the `NotImplemented` sentinel. -/
def TFEagerPolicy.apply_gradients {α : Type} (st : PolicyState α)
    (gradients : List α) : PolicyState α × PyRet Unit :=
  (st, PyRet.notImplemented)

/-- The body of `TFEagerPolicy.get_weights` (`eager_policy.py` lines
133-143): read every variable of `self.model.variables()` with
`.numpy()`. -/
def TFEagerPolicy.get_weights {α : Type} (vars : List (TFVariable α)) :
    List α :=
  vars.map TFVariable.numpy

/-- The body of `TFEagerPolicy.set_weights` (`eager_policy.py` lines
145-153): `tf.nest.map_structure(lambda var, value: var.assign(value),
self.model.variables(), weights)` assigns each weight into the matching
variable; `tf.nest` raises when the two structures do not match. -/
def TFEagerPolicy.set_weights {α : Type} (vars : List (TFVariable α))
    (weights : List α) : Except PyErr (List (TFVariable α)) :=
  if vars.length = weights.length then
    Except.ok (List.zipWith TFVariable.assign vars weights)
  else
    Except.error (PyErr.valueError "The two structures do not match")

/-- `get_weights` as an operation on the policy object: a pure read of the
model's variable heap that leaves every attribute alone. -/
def TFEagerPolicy.get_weights_state {α : Type} (st : PolicyState α) :
    PolicyState α × List α :=
  (st, TFEagerPolicy.get_weights st.modelVars)

/-- `set_weights` as an operation on the policy object: the variables of
the referenced model are assigned in place; no attribute of `self` is
rebound. -/
def TFEagerPolicy.set_weights_state {α : Type} (st : PolicyState α)
    (weights : List α) : PolicyState α × Except PyErr Unit :=
  match TFEagerPolicy.set_weights st.modelVars weights with
  | Except.ok vs => ({ st with modelVars := vs }, Except.ok ())
  | Except.error e => (st, Except.error e)

/-- The body of `policy_cls.postprocess_trajectory` (`eager_policy.py`
lines 317-325): apply `postprocess_fn` when one was supplied to
`build_tf_policy`, and hand the batch back untouched otherwise. -/
def policy_cls.postprocess_trajectory {α : Type} (cfg : BuildConfig α)
    (samples : PyDict α) : PyDict α :=
  match cfg.postprocess_fn with
  | some f => f samples
  | none => samples

/-- `postprocess_trajectory` as an operation on the policy object: its body
reads no attribute of `self` other than through the callback and assigns
none. -/
def policy_cls.postprocess_trajectory_state {α : Type} (cfg : BuildConfig α)
    (st : PolicyState α) (samples : PyDict α) : PolicyState α × PyDict α :=
  (st, policy_cls.postprocess_trajectory cfg samples)

/-- The parameter names of `build_tf_policy` (`eager_policy.py` lines
183-200), in declaration order. -/
def build_tf_policy_params : List String :=
  ["name", "loss_fn", "get_default_config", "postprocess_fn", "stats_fn",
   "optimizer_fn", "gradients_fn", "grad_stats_fn", "extra_learn_fetches_fn",
   "extra_action_feed_fn", "extra_action_fetches_fn", "before_init",
   "before_loss_init", "after_init", "make_model", "action_sampler_fn",
   "mixins", "obs_include_prev_action_reward"]

/-- The keyword-argument names used at the module-level call
`eager_policy.build_tf_policy(...)` in
`python/ray/rllib/agents/pg/eager_pg_policy.py` lines 34-41. -/
def eager_pg_policy_kwargs : List String :=
  ["name", "get_default_config", "postprocess_fn", "loss_fn", "make_model",
   "make_optimizer"]

/-- Python keyword-argument binding for a function without a `**kwargs`
parameter: the call raises `TypeError` at the first keyword that is not
among the declared parameter names, and goes through otherwise. -/
def pyKeywordCall (params kwargs : List String) : Except PyErr Unit :=
  match kwargs.filter (fun k => !params.contains k) with
  | [] => Except.ok ()
  | k :: _ =>
      Except.error
        (PyErr.typeError ("got an unexpected keyword argument " ++ k))

/-- The class tags `get_policy_class` in
`python/ray/rllib/agents/pg/pg.py` can return. -/
inductive PolicyClassTag where
  | PGTorchPolicy : PolicyClassTag
  | EagerPGTFPolicy : PolicyClassTag
  | PGTFPolicy : PolicyClassTag
deriving DecidableEq

/-- The body of `get_policy_class` (`pg.py` lines 27-40), as a function of
the two configuration flags it reads. -/
def get_policy_class (use_pytorch use_eager : Bool) :
    Except PyErr PolicyClassTag :=
  if use_pytorch && use_eager then
    Except.error (PyErr.valueError
      "Can't run in TF eager mode and PyTorch mode simultaneously")
  else if use_pytorch then Except.ok PolicyClassTag.PGTorchPolicy
  else if use_eager then Except.ok PolicyClassTag.EagerPGTFPolicy
  else Except.ok PolicyClassTag.PGTFPolicy

/-- The error checks written into the generated `policy_cls.__init__`
itself (`eager_policy.py` lines 206 and 217-220): the
`assert tf.executing_eagerly()` guard, and the explicit
`raise ValueError` when `action_sampler_fn` is supplied without
`make_model`.  Everything else the constructor does is delegation to the
wrapped framework and the user callbacks. -/
def policy_init_checks (executing_eagerly action_sampler_fn_given
    make_model_given : Bool) : Except PyErr Unit :=
  if !executing_eagerly then Except.error PyErr.assertionError
  else if action_sampler_fn_given && !make_model_given then
    Except.error (PyErr.valueError
      "make_model is required if action_sampler_fn is given")
  else Except.ok ()

/-- Whether a Python computation modelled in `Except` raised. -/
def raisesError {β : Type} : Except PyErr β → Bool
  | Except.error _ => true
  | Except.ok _ => false

/-- A concrete instantiation of the framework operations over integer-valued
tensors, used to evaluate the embedding at explicit inputs. -/
def extOps : ExternalOps Int :=
  { convert := id
    convertOpt := fun o => o.getD 0
    isObjectDtype := fun _ => false
    onesOfBatch := fun _ => 1
    onesOfLen := fun _ => 1
    modelForward := fun _ _ _ => (0, [])
    sample := id
    sampledActionLogp := fun _ => 0
    actionSampler := fun _ => (0, some 0)
    exp := fun x => x + 1
    falseVal := 0
    tapeGradient := fun _ vs => vs.map fun _ => 5
    applyGradientsHeap := fun _ vs => vs
    optimizerComputeGradients := fun _ => [] }

/-- A concrete policy state with a distribution class present. -/
def basePolicyState : PolicyState Int :=
  { optimizer := 1
    model := 2
    modelVars := [⟨10⟩, ⟨20⟩]
    trainableVars := [⟨10⟩]
    is_training := false
    dist_class := some (fun x => x)
    seq_lens := none
    state_in := []
    model_out := none
    state_out := []
    action_dist := none }

/-- A concrete callback configuration with every optional callback left
out, as in the PG policy. -/
def baseConfig : BuildConfig Int :=
  { loss_fn := fun _ => 0
    stats_fn := none
    extra_learn_fetches_fn := none
    grad_stats_fn := none
    postprocess_fn := none
    extra_action_fetches_fn := none
    gradients_fn := none
    obs_include_prev_action_reward := true }

/-- Claim C2.  The module-level call building `PGTFPolicy` in
`eager_pg_policy.py` passes the keyword argument `make_optimizer`, but
`build_tf_policy` declares no such parameter (its optimizer callback
parameter is named `optimizer_fn`), so the call raises `TypeError` instead
of succeeding: the claim that every keyword argument used at that call site
is accepted fails on the keyword `make_optimizer`. -/
theorem build_PGTFPolicy_call_raises_unexpected_keyword :
    pyKeywordCall build_tf_policy_params eager_pg_policy_kwargs
      = Except.error
          (PyErr.typeError
            "got an unexpected keyword argument make_optimizer") := by
  rfl

/-- Claim C3.  Every `compute_gradients` call raises: the loss closure it
hands to the wrapped optimizer calls `self.loss(postprocessed_batch)` with
one positional argument although `TFEagerPolicy.loss` declares two
(`outputs`, `samples`) and the generated class never overrides `loss`, so
the call raises `TypeError` before any gradient is returned (and the later
`self.stats(self, batch, grads)` call would likewise pass three arguments
against two parameters).  The claim that it returns `(grads, info)` without
raising fails on every input. -/
theorem compute_gradients_always_raises_type_error {α : Type}
    (ext : ExternalOps α) (st : PolicyState α) (batch : PyDict α) :
    (TFEagerPolicy.compute_gradients ext st batch).2
      = Except.error
          (PyErr.typeError "wrong number of positional arguments") := by
  rfl

/-- Claim C4, counterexample.  With `use_pytorch` and `use_eager` both set,
`get_policy_class` raises a `ValueError` of its own, produced by the
adapter code and not by the wrapped framework, refuting the claim that the
adapter raises no error of its own for any combination of configuration
flags. -/
theorem get_policy_class_raises_on_both_flags :
    get_policy_class true true
      = Except.error (PyErr.valueError
          "Can't run in TF eager mode and PyTorch mode simultaneously") := by
  rfl

/-- Claim C4, amended.  The two adapter entry points named by the claim do
raise errors of their own, in exactly these cases: the generated
constructor fails its `assert tf.executing_eagerly()` guard when eager
execution is off and raises `ValueError` when `action_sampler_fn` is
supplied without `make_model`; `get_policy_class` raises `ValueError` when
`use_pytorch` and `use_eager` are both set.  For every other combination of
flags neither raises an adapter-originated error. -/
theorem adapter_error_cases (use_pytorch use_eager executing_eagerly
    action_sampler_fn_given make_model_given : Bool) :
    raisesError (get_policy_class use_pytorch use_eager)
        = (use_pytorch && use_eager)
  ∧ raisesError (policy_init_checks executing_eagerly
        action_sampler_fn_given make_model_given)
        = (!executing_eagerly
            || (action_sampler_fn_given && !make_model_given)) := by
  constructor
  · cases use_pytorch <;> cases use_eager <;> rfl
  · cases executing_eagerly <;> cases action_sampler_fn_given <;>
      cases make_model_given <;> rfl

/-- Claim C5, counterexample.  `apply_gradients`, one of the seven
operations of the fixed method surface, returns the `NotImplemented`
sentinel at this concrete input instead of performing its documented
operation, refuting the claim that every operation returns its documented
result rather than a not-implemented sentinel. -/
theorem apply_gradients_is_stub_at_input :
    (TFEagerPolicy.apply_gradients basePolicyState [(0 : Int)]).2
      = PyRet.notImplemented := by
  rfl

/-- Claim C5, amended.  The produced class provides the seven operations as
methods, but `apply_gradients` does not perform its operation: its body is
`return NotImplemented`, so it returns the `NotImplemented` sentinel and
leaves the policy state untouched for every input. -/
theorem apply_gradients_always_returns_sentinel {α : Type}
    (st : PolicyState α) (gradients : List α) :
    TFEagerPolicy.apply_gradients st gradients
      = (st, PyRet.notImplemented) := by
  rfl

/-- Claim C8.  `postprocess_trajectory` returns `postprocess_fn(policy,
samples)` when a postprocessing callback was supplied to `build_tf_policy`,
and returns the input batch itself, unchanged, when none was supplied. -/
theorem postprocess_trajectory_callback_or_identity {α : Type}
    (cfg : BuildConfig α) (f : PyDict α → PyDict α) (samples : PyDict α) :
    policy_cls.postprocess_trajectory { cfg with postprocess_fn := some f }
        samples = f samples
  ∧ policy_cls.postprocess_trajectory { cfg with postprocess_fn := none }
        samples = samples :=
  ⟨rfl, rfl⟩

theorem get_weights_of_assigned {α : Type} (vars : List (TFVariable α)) :
    ∀ w : List α, vars.length = w.length →
      TFEagerPolicy.get_weights (List.zipWith TFVariable.assign vars w) = w := by
  induction vars with
  | nil =>
      intro w h
      cases w with
      | nil => rfl
      | cons x xs => simp at h
  | cons v vs ih =>
      intro w h
      cases w with
      | nil => simp at h
      | cons x xs =>
          have htl : vs.length = xs.length := by simpa using h
          simp [TFEagerPolicy.get_weights, TFVariable.assign,
            TFVariable.numpy] at ih ⊢
          exact ih xs htl

theorem assign_current_values {α : Type} (vars : List (TFVariable α)) :
    List.zipWith TFVariable.assign vars (TFEagerPolicy.get_weights vars)
      = vars := by
  induction vars with
  | nil => rfl
  | cons v vs ih =>
      simp [TFEagerPolicy.get_weights, TFVariable.assign,
        TFVariable.numpy] at ih ⊢
      exact ih

/-- Claim C10.  `get_weights` and `set_weights` round-trip over the model's
variable structure: a weights list matching the variables in structure is
stored by `set_weights` and read back verbatim by `get_weights`, and
`set_weights(get_weights())` stores into every variable exactly the value
it already holds. -/
theorem weights_round_trip {α : Type} (vars : List (TFVariable α))
    (w : List α) (h : w.length = vars.length) :
    TFEagerPolicy.set_weights vars w
        = Except.ok (List.zipWith TFVariable.assign vars w)
  ∧ TFEagerPolicy.get_weights (List.zipWith TFVariable.assign vars w) = w
  ∧ TFEagerPolicy.set_weights vars (TFEagerPolicy.get_weights vars)
        = Except.ok vars := by
  refine ⟨?_, ?_, ?_⟩
  · simp [TFEagerPolicy.set_weights, h]
  · exact get_weights_of_assigned vars w h.symm
  · have h2 := assign_current_values vars
    simp [TFEagerPolicy.get_weights] at h2
    simp [TFEagerPolicy.set_weights, TFEagerPolicy.get_weights, h2]

/-- Witness for `weights_round_trip` at a concrete two-variable model. -/
theorem weights_round_trip_witness :
    ([(3 : Int), 4].length = [TFVariable.mk (1 : Int), TFVariable.mk 2].length)
  ∧ (TFEagerPolicy.set_weights [TFVariable.mk (1 : Int), TFVariable.mk 2]
        [3, 4]
        = Except.ok (List.zipWith TFVariable.assign
            [TFVariable.mk (1 : Int), TFVariable.mk 2] [3, 4])
     ∧ TFEagerPolicy.get_weights (List.zipWith TFVariable.assign
            [TFVariable.mk (1 : Int), TFVariable.mk 2] [3, 4]) = [3, 4]
     ∧ TFEagerPolicy.set_weights [TFVariable.mk (1 : Int), TFVariable.mk 2]
          (TFEagerPolicy.get_weights
            [TFVariable.mk (1 : Int), TFVariable.mk 2])
        = Except.ok [TFVariable.mk (1 : Int), TFVariable.mk 2]) :=
  ⟨rfl, weights_round_trip [TFVariable.mk (1 : Int), TFVariable.mk 2]
    [3, 4] rfl⟩

/-- Claim C1.  `learn_on_batch` is claimed to apply the gradient/variable
pairs `zip(tape.gradient(loss, variables), variables)` on every call; this
code-bug theorem shows what the code actually hands to
`optimizer.apply_gradients` in the default `gradients_fn is None`
configuration.  On a call where `log_once("grad_vars")` returns `True` (the
first call in a process) the pairs are rebound to a list and all of them
are applied; on every later call the `zip` iterator is exhausted by the
stats list comprehension `[g for g, v in grads_and_vars]` before
`apply_gradients` runs, so `apply_gradients` receives the empty sequence
and no gradient/variable pair at all. -/
theorem learn_on_batch_applies_only_on_first_call {α : Type}
    (ext : ExternalOps α) (cfg : BuildConfig α) (st : PolicyState α)
    (samples : PyDict α) :
    (TFEagerPolicy.learn_on_batch ext { cfg with gradients_fn := none } true
        st samples).applied
      = (ext.tapeGradient
          (cfg.loss_fn (TFEagerPolicy.convert_batch ext samples))
          st.trainableVars).zip st.trainableVars
  ∧ (TFEagerPolicy.learn_on_batch ext { cfg with gradients_fn := none } false
        st samples).applied = [] := by
  obtain ⟨o, m, mv, tv, itr, dcl, sl, si, mo, so, ad⟩ := st
  constructor <;> cases dcl <;> rfl

/-- Claim C6.  No public operation rebinds `self.model` or
`self.optimizer`: across `learn_on_batch`, `compute_actions`,
`compute_gradients`, `apply_gradients`, `get_weights`, `set_weights` and
`postprocess_trajectory`, the model and optimizer references stored at
construction time are returned unchanged in the resulting policy state
(variable heaps and bookkeeping attributes may change, the two references
never do). -/
theorem public_ops_preserve_model_and_optimizer {α : Type}
    (ext : ExternalOps α) (cfg : BuildConfig α) (st : PolicyState α)
    (samples batch : PyDict α) (obs_batch : α) (states : List α)
    (pa pr : Option α) (grads weights : List α) (logOnce : Bool) :
    ((TFEagerPolicy.learn_on_batch ext cfg logOnce st samples).state.model
          = st.model
      ∧ (TFEagerPolicy.learn_on_batch ext cfg logOnce st
            samples).state.optimizer = st.optimizer)
  ∧ ((policy_cls.compute_actions ext cfg st obs_batch states pa
          pr).state.model = st.model
      ∧ (policy_cls.compute_actions ext cfg st obs_batch states pa
            pr).state.optimizer = st.optimizer)
  ∧ ((TFEagerPolicy.compute_gradients ext st batch).1.model = st.model
      ∧ (TFEagerPolicy.compute_gradients ext st batch).1.optimizer
          = st.optimizer)
  ∧ ((TFEagerPolicy.apply_gradients st grads).1.model = st.model
      ∧ (TFEagerPolicy.apply_gradients st grads).1.optimizer = st.optimizer)
  ∧ (TFEagerPolicy.get_weights_state st).1 = st
  ∧ ((TFEagerPolicy.set_weights_state st weights).1.model = st.model
      ∧ (TFEagerPolicy.set_weights_state st weights).1.optimizer
          = st.optimizer)
  ∧ (policy_cls.postprocess_trajectory_state cfg st samples).1 = st := by
  obtain ⟨o, m, mv, tv, itr, dcl, sl, si, mo, so, ad⟩ := st
  refine ⟨⟨?_, ?_⟩, ⟨?_, ?_⟩, ⟨rfl, rfl⟩, ⟨rfl, rfl⟩, rfl, ⟨?_, ?_⟩, rfl⟩
  · cases dcl <;> rfl
  · cases dcl <;> rfl
  · cases dcl <;> rfl
  · cases dcl <;> rfl
  · rcases hsw : TFEagerPolicy.set_weights mv weights with e | vs <;>
      simp [TFEagerPolicy.set_weights_state, hsw]
  · rcases hsw : TFEagerPolicy.set_weights mv weights with e | vs <;>
      simp [TFEagerPolicy.set_weights_state, hsw]

/-- The value `policy_cls._stats` stores under `LEARNER_STATS_KEY` before
any extra fetches are merged: the converted output of `stats_fn` when that
callback was supplied, the empty dict otherwise. -/
def policy_cls.learner_stats_value {α : Type} (cfg : BuildConfig α)
    (samples : PyDict α) : StatVal α :=
  match cfg.stats_fn with
  | some f => StatVal.table (f samples)
  | none => StatVal.table []

theorem stats_method_learner_slot {α : Type} (cfg : BuildConfig α)
    (samples : PyDict α) (grads : List α)
    (h1 : ∀ d, cfg.extra_learn_fetches_fn = some d →
        dictHasKey d LEARNER_STATS_KEY = false)
    (h2 : ∀ f, cfg.grad_stats_fn = some f →
        dictHasKey (f samples grads) LEARNER_STATS_KEY = false) :
    dictHasKey (policy_cls.stats_method cfg samples grads)
        LEARNER_STATS_KEY = true
  ∧ dictGet (policy_cls.stats_method cfg samples grads) LEARNER_STATS_KEY
      = some (policy_cls.learner_stats_value cfg samples) := by
  obtain ⟨lf, sf, elf, gsf, pf, eaf, gf, oip⟩ := cfg
  have hb : ∀ v : StatVal α,
      dictHasKey (dictSet ([] : PyDict (StatVal α)) LEARNER_STATS_KEY v)
        LEARNER_STATS_KEY = true := fun v => by
    simp [dictHasKey, dictGet_dictSet_self]
  cases sf <;>
    (cases elf with
     | none =>
         cases gsf with
         | none => exact ⟨hb _, dictGet_dictSet_self _ _ _⟩
         | some f =>
             exact ⟨dictHasKey_dictUpdate_of _ _ _ (hb _),
               (dictGet_dictUpdate_of_hasKey_false _ _ _
                 ((dictHasKey_map _ _ _).trans (h2 f rfl))).trans
                 (dictGet_dictSet_self _ _ _)⟩
     | some d =>
         cases gsf with
         | none =>
             exact ⟨dictHasKey_dictUpdate_of _ _ _ (hb _),
               (dictGet_dictUpdate_of_hasKey_false _ _ _
                 ((dictHasKey_map _ _ _).trans (h1 d rfl))).trans
                 (dictGet_dictSet_self _ _ _)⟩
         | some f =>
             exact ⟨dictHasKey_dictUpdate_of _ _ _
                 (dictHasKey_dictUpdate_of _ _ _ (hb _)),
               (dictGet_dictUpdate_of_hasKey_false _ _ _
                 ((dictHasKey_map _ _ _).trans (h2 f rfl))).trans
                 ((dictGet_dictUpdate_of_hasKey_false _ _ _
                   ((dictHasKey_map _ _ _).trans (h1 d rfl))).trans
                   (dictGet_dictSet_self _ _ _))⟩)

/-- Claim C7, amended.  The statistics dict `learn_on_batch` returns always
contains `LEARNER_STATS_KEY`, and it maps that key to the output of the
user stats function (converted to plain values) when a stats callback was
supplied and to the empty dict otherwise, provided the outputs of
`extra_learn_fetches_fn` and `grad_stats_fn` do not themselves carry
`LEARNER_STATS_KEY` (their entries are merged afterwards with `dict.update`
and overwrite the slot when they do, see the counterexample). -/
theorem learn_on_batch_stats_learner_slot {α : Type} (ext : ExternalOps α)
    (cfg : BuildConfig α) (logOnce : Bool) (st : PolicyState α)
    (samples : PyDict α)
    (h1 : ∀ d, cfg.extra_learn_fetches_fn = some d →
        dictHasKey d LEARNER_STATS_KEY = false)
    (h2 : ∀ f, cfg.grad_stats_fn = some f → ∀ s g,
        dictHasKey (f s g) LEARNER_STATS_KEY = false) :
    dictHasKey (TFEagerPolicy.learn_on_batch ext cfg logOnce st
        samples).stats LEARNER_STATS_KEY = true
  ∧ dictGet (TFEagerPolicy.learn_on_batch ext cfg logOnce st samples).stats
        LEARNER_STATS_KEY
      = some (policy_cls.learner_stats_value cfg
          (TFEagerPolicy.convert_batch ext samples)) := by
  obtain ⟨lf, sf, elf, gsf, pf, eaf, gf, oip⟩ := cfg
  obtain ⟨o, m, mv, tv, itr, dcl, sl, si, mo, so, ad⟩ := st
  have key := fun g =>
    stats_method_learner_slot ⟨lf, sf, elf, gsf, pf, eaf, gf, oip⟩
      (TFEagerPolicy.convert_batch ext samples) g h1
      (fun f hf => h2 f hf _ g)
  cases dcl <;> cases gf <;> cases logOnce <;>
    exact ⟨(key _).1, (key _).2⟩

/-- A configuration with a stats callback, as a policy built with a
`stats_fn` would hold. -/
def statsConfig : BuildConfig Int :=
  { baseConfig with stats_fn := some fun _ => [("x", 7)] }

/-- Witness for `learn_on_batch_stats_learner_slot` at concrete inputs:
with a stats callback returning `{"x": 7}` and no extra fetch callbacks,
the returned statistics dict maps the learner-stats key to that table. -/
theorem learn_on_batch_stats_learner_slot_witness :
    dictHasKey (TFEagerPolicy.learn_on_batch extOps statsConfig true
        basePolicyState [("obs", 3)]).stats LEARNER_STATS_KEY = true
  ∧ dictGet (TFEagerPolicy.learn_on_batch extOps statsConfig true
        basePolicyState [("obs", 3)]).stats LEARNER_STATS_KEY
      = some (StatVal.table [("x", 7)]) :=
  learn_on_batch_stats_learner_slot extOps statsConfig true basePolicyState
    [("obs", 3)] (fun d hd => nomatch hd) (fun f hf => nomatch hf)

/-- A configuration whose `extra_learn_fetches_fn` output reuses
`LEARNER_STATS_KEY`. -/
def overwritingConfig : BuildConfig Int :=
  { baseConfig with
    stats_fn := some fun _ => [("x", 7)]
    extra_learn_fetches_fn := some [(LEARNER_STATS_KEY, 0)] }

/-- Claim C7, counterexample.  With a stats callback supplied, the claim
says the returned statistics dict maps `LEARNER_STATS_KEY` to the stats
output `{"x": 7}`; but when the `extra_learn_fetches_fn` output carries
that same key, the later `fetches.update(...)` in `policy_cls._stats`
overwrites the slot, and `learn_on_batch` returns `0` there instead. -/
theorem learner_stats_slot_overwritten :
    dictGet (TFEagerPolicy.learn_on_batch extOps overwritingConfig true
        basePolicyState [("obs", 3)]).stats LEARNER_STATS_KEY
      = some (StatVal.tensor 0)
  ∧ StatVal.tensor (0 : Int) ≠ StatVal.table [("x", 7)] :=
  ⟨rfl, by decide⟩

theorem action_fetches_slots {α : Type} (ext : ExternalOps α) (l : α)
    (extra : Option (PyDict α))
    (hclean : ∀ d, extra = some d → dictHasKey d ACTION_PROB = false
        ∧ dictHasKey d ACTION_LOGP = false) :
    dictHasKey (policy_cls.action_fetches ext (some l) extra)
        ACTION_PROB = true
  ∧ dictHasKey (policy_cls.action_fetches ext (some l) extra)
        ACTION_LOGP = true
  ∧ dictGet (policy_cls.action_fetches ext (some l) extra) ACTION_PROB
      = some (ext.exp l)
  ∧ dictGet (policy_cls.action_fetches ext (some l) extra) ACTION_LOGP
      = some l := by
  have hne : ACTION_PROB ≠ ACTION_LOGP := by decide
  have hprob : dictGet (dictSet (dictSet ([] : PyDict α) ACTION_PROB
      (ext.exp l)) ACTION_LOGP l) ACTION_PROB = some (ext.exp l) :=
    (dictGet_dictSet_ne _ _ _ _ hne).trans (dictGet_dictSet_self _ _ _)
  have hlogp : dictGet (dictSet (dictSet ([] : PyDict α) ACTION_PROB
      (ext.exp l)) ACTION_LOGP l) ACTION_LOGP = some l :=
    dictGet_dictSet_self _ _ _
  have hbk1 : dictHasKey (dictSet (dictSet ([] : PyDict α) ACTION_PROB
      (ext.exp l)) ACTION_LOGP l) ACTION_PROB = true := by
    simp [dictHasKey, hprob]
  have hbk2 : dictHasKey (dictSet (dictSet ([] : PyDict α) ACTION_PROB
      (ext.exp l)) ACTION_LOGP l) ACTION_LOGP = true := by
    simp [dictHasKey, hlogp]
  cases extra with
  | none => exact ⟨hbk1, hbk2, hprob, hlogp⟩
  | some d =>
      exact ⟨dictHasKey_dictUpdate_of _ _ _ hbk1,
        dictHasKey_dictUpdate_of _ _ _ hbk2,
        (dictGet_dictUpdate_of_hasKey_false _ _ _ (hclean d rfl).1).trans
          hprob,
        (dictGet_dictUpdate_of_hasKey_false _ _ _ (hclean d rfl).2).trans
          hlogp⟩

/-- Claim C9, amended.  On every `compute_actions` call that produces a
log-probability, the returned fetches dict contains both `ACTION_PROB` and
`ACTION_LOGP`; the stored values are `tf.exp(logp)` and `logp`, so the
probability entry is the exponential of the log-probability entry, provided
the output of `extra_action_fetches_fn` (merged afterwards with
`dict.update`) does not itself carry either key — when it does it
overwrites the stored value, see the counterexample. -/
theorem compute_actions_prob_is_exp_of_logp {α : Type} (ext : ExternalOps α)
    (cfg : BuildConfig α) (st : PolicyState α) (obs_batch : α)
    (states : List α) (pa pr : Option α) (l : α)
    (hl : policy_cls.computed_logp ext cfg st obs_batch states pa pr
        = some l)
    (hclean : ∀ d, cfg.extra_action_fetches_fn = some d →
        dictHasKey d ACTION_PROB = false
        ∧ dictHasKey d ACTION_LOGP = false) :
    dictHasKey (policy_cls.compute_actions ext cfg st obs_batch states pa
        pr).fetches ACTION_PROB = true
  ∧ dictHasKey (policy_cls.compute_actions ext cfg st obs_batch states pa
        pr).fetches ACTION_LOGP = true
  ∧ dictGet (policy_cls.compute_actions ext cfg st obs_batch states pa
        pr).fetches ACTION_PROB = some (ext.exp l)
  ∧ dictGet (policy_cls.compute_actions ext cfg st obs_batch states pa
        pr).fetches ACTION_LOGP = some l := by
  obtain ⟨o, m, mv, tv, itr, dcl, sl, si, mo, so, ad⟩ := st
  cases dcl with
  | some dc =>
      have hl2 : some (ext.sampledActionLogp (dc (ext.modelForward
          (policy_cls.action_input_dict ext cfg obs_batch pa pr) states
          (ext.onesOfLen obs_batch)).1)) = some l := hl
      have hl3 := Option.some.inj hl2
      have hshow : (policy_cls.compute_actions ext cfg
          ⟨o, m, mv, tv, itr, some dc, sl, si, mo, so, ad⟩ obs_batch states
          pa pr).fetches
          = policy_cls.action_fetches ext
              (some (ext.sampledActionLogp (dc (ext.modelForward
                (policy_cls.action_input_dict ext cfg obs_batch pa pr)
                states (ext.onesOfLen obs_batch)).1)))
              cfg.extra_action_fetches_fn := rfl
      rw [hshow, hl3]
      exact action_fetches_slots ext l cfg.extra_action_fetches_fn hclean
  | none =>
      have hl2 : (ext.actionSampler
          (policy_cls.action_input_dict ext cfg obs_batch pa pr)).2
          = some l := hl
      have hshow : (policy_cls.compute_actions ext cfg
          ⟨o, m, mv, tv, itr, none, sl, si, mo, so, ad⟩ obs_batch states
          pa pr).fetches
          = policy_cls.action_fetches ext
              (ext.actionSampler
                (policy_cls.action_input_dict ext cfg obs_batch pa pr)).2
              cfg.extra_action_fetches_fn := rfl
      rw [hshow, hl2]
      exact action_fetches_slots ext l cfg.extra_action_fetches_fn hclean

/-- Witness for `compute_actions_prob_is_exp_of_logp` at concrete inputs
with no extra action fetches. -/
theorem compute_actions_prob_is_exp_of_logp_witness :
    policy_cls.computed_logp extOps baseConfig basePolicyState 0 [] none
        none = some 0
  ∧ (dictHasKey (policy_cls.compute_actions extOps baseConfig
        basePolicyState 0 [] none none).fetches ACTION_PROB = true
     ∧ dictHasKey (policy_cls.compute_actions extOps baseConfig
        basePolicyState 0 [] none none).fetches ACTION_LOGP = true
     ∧ dictGet (policy_cls.compute_actions extOps baseConfig
        basePolicyState 0 [] none none).fetches ACTION_PROB
          = some (extOps.exp 0)
     ∧ dictGet (policy_cls.compute_actions extOps baseConfig
        basePolicyState 0 [] none none).fetches ACTION_LOGP = some 0) :=
  ⟨rfl, compute_actions_prob_is_exp_of_logp extOps baseConfig
    basePolicyState 0 [] none none 0 rfl (fun d hd => nomatch hd)⟩

/-- A configuration whose `extra_action_fetches_fn` output reuses the
`ACTION_PROB` key. -/
def probOverwritingConfig : BuildConfig Int :=
  { baseConfig with extra_action_fetches_fn := some [(ACTION_PROB, 42)] }

/-- Claim C9, counterexample.  At this concrete call a log-probability `0`
is produced, both keys are present, but the `ACTION_PROB` entry has been
overwritten to `42` by the `extra_action_fetches_fn` merge, so it is not
the exponential of the `ACTION_LOGP` entry (`exp 0 = 1` here). -/
theorem action_prob_overwritten_by_extra_fetches :
    dictGet (policy_cls.compute_actions extOps probOverwritingConfig
        basePolicyState 0 [] none none).fetches ACTION_PROB = some 42
  ∧ dictGet (policy_cls.compute_actions extOps probOverwritingConfig
        basePolicyState 0 [] none none).fetches ACTION_LOGP = some 0
  ∧ extOps.exp 0 ≠ (42 : Int) :=
  ⟨rfl, rfl, by decide⟩
